import Mathlib

/-!
Shallow embedding of the chat-mom-offline relay server
(`src/chat_server.py`) and of the offline durable-queue front-end
(`src/offline_server.py`), together with theorems checking the
natural-language specification against the code.

Modelling conventions:
* Python `dict` over string keys is an association list `Dict α` with the
  update/lookup/pop/setdefault semantics of `dict` (first occurrence wins;
  update replaces in place, insert appends at the end).
* Python `set` of strings is a duplicate-free `List String` in insertion
  order; `setAdd`/`setDiscard` mirror `set.add`/`set.discard`.
* `str.strip()` is `pyStrip`, `str.upper()` is `pyUpper`, `sorted(...)` is
  `pySorted` (code-point order on ASCII, matching Python on the data the
  server handles).
* Network writes initiated by a handler towards OTHER connections
  (direct delivery `_send_to_user`, presence fan-out `_presence_broadcast`)
  can fail; the environment `Env.writeOk` says, per connection id, whether
  such a write succeeds.  Replies on the handler's own connection are
  modelled as succeeding (a failing own-connection write only tears the
  connection down and is not what the claims are about).
* `save_contacts` succeeding is `Env.persistOk`; `_offline_enqueue`
  succeeding is `Env.enqueueOk`.  A Python exception escaping the command
  loop (there is no `except` around the loop body, only `finally`) is the
  `alive := false` outcome of a step: no reply is emitted for that command
  and the session ends with the `finally` cleanup.
* One handler thread processing its input stream is `runSession` over a
  list of `Event`s: a parsed command, end of stream (`readline` returned
  the empty string), an unparseable / unreadable record, or the socket
  idle timeout.
-/

namespace ChatMom

/-- `str.strip()`: drop whitespace from both ends (character-level model of
Python's strip, faithful on ASCII whitespace). -/
def pyStrip (s : String) : String :=
  ⟨((s.data.dropWhile Char.isWhitespace).reverse.dropWhile Char.isWhitespace).reverse⟩

/-- `str.upper()` (character-level, faithful on ASCII). -/
def pyUpper (s : String) : String := ⟨s.data.map Char.toUpper⟩

/-- Lexicographic code-point comparison, the order `sorted` uses on `str`. -/
def strLeChars : List Char → List Char → Bool
  | [], _ => true
  | _ :: _, [] => false
  | a :: as, b :: bs => if a = b then strLeChars as bs else decide (a.toNat < b.toNat)

/-- String comparison used by `pySorted`. -/
def strLe (a b : String) : Bool := strLeChars a.data b.data

/-- Insert into a sorted list (helper for `pySorted`). -/
def insOrd (x : String) : List String → List String
  | [] => [x]
  | y :: ys => if strLe x y then x :: y :: ys else y :: insOrd x ys

/-- `sorted(list(s))`: insertion sort by code-point order. -/
def pySorted (l : List String) : List String := l.foldr insOrd []

/-- Python `dict` with string keys, as an association list.  The invariant
that keys occur at most once (`nodupKeys`) holds for every dict the server
builds; lookups and updates act on the first occurrence. -/
abbrev Dict (α : Type) := List (String × α)

/-- `d[k]` / `d.get(k)`: first binding of `k`. -/
def dictGet {α : Type} : Dict α → String → Option α
  | [], _ => none
  | (k', v) :: d, k => if k' = k then some v else dictGet d k

/-- `d.get(k, v0)`. -/
def dictGetD {α : Type} (d : Dict α) (k : String) (v0 : α) : α :=
  (dictGet d k).getD v0

/-- `d[k] = v`: replace the binding in place, or append a new one. -/
def dictSet {α : Type} : Dict α → String → α → Dict α
  | [], k, v => [(k, v)]
  | (k', v') :: d, k, v =>
      if k' = k then (k, v) :: d else (k', v') :: dictSet d k v

/-- `d.pop(k, None)`: drop the binding of `k` if present. -/
def dictPop {α : Type} : Dict α → String → Dict α
  | [], _ => []
  | (k', v') :: d, k => if k' = k then d else (k', v') :: dictPop d k

/-- `d.setdefault(k, v0)` (the resulting dict; the returned value is
`dictGetD d k v0` of the result). -/
def dictSetdefault {α : Type} (d : Dict α) (k : String) (v0 : α) : Dict α :=
  match dictGet d k with
  | some _ => d
  | none => d ++ [(k, v0)]

/-- Keys are pairwise distinct — the invariant of a Python `dict`. -/
def nodupKeys {α : Type} (d : Dict α) : Prop := (d.map Prod.fst).Nodup

instance {α : Type} [DecidableEq α] (d : Dict α) : Decidable (nodupKeys d) := by
  unfold nodupKeys; infer_instance

/-- Number of bindings of key `k` (to state single-valuedness). -/
def countKey {α : Type} (d : Dict α) (k : String) : Nat :=
  (d.filter (fun p => p.1 = k)).length

/-- `s.add(x)` on a Python set modelled as an insertion-ordered list. -/
def setAdd (s : List String) (x : String) : List String :=
  if x ∈ s then s else s ++ [x]

/-- `s.discard(x)`. -/
def setDiscard (s : List String) (x : String) : List String :=
  s.filter (fun y => y ≠ x)

/-! ### Wire records (src/chat_server.py protocol) -/

/-- Server→client records of `chat_server.py` (the fields the code sets). -/
inductive Msg where
  | ERROR (message : String)
  | REGISTERED (user status : String) (contacts : List String)
      (presence : List (String × String))
  | OK (action status : String)
  | CONTACTS (contacts : List String) (presence : Option (List (String × String)))
  | PRESENCE (contact status : String)
  | DELIVER (fromUser text : String) (ts : Int)
  | SENT (mode : String)
deriving DecidableEq, Repr

/-- Client→server commands (already JSON-parsed; a record that does not
parse is a transport failure, `Event.badRecord`).  Fields carry the raw
strings of the record; the handler applies `pyStrip`/`pyUpper` itself,
as the code does.  `SEND`'s `ts` is the request timestamp (or the server
clock value substituted for a missing one). -/
inductive Req where
  | REGISTER (user : String)
  | SET_STATUS (status : String)
  | ADD_CONTACT (contact : String)
  | REMOVE_CONTACT (contact : String)
  | SEND (toUser text : String) (ts : Int)
  | UNKNOWN (typ : String)
deriving DecidableEq, Repr

/-- Observable side effects of one handler step, in program order.
`reply` is a write on the handler's own connection; `push`/`pushFailed`
are attempted writes on another connection (`connId`); `enqueueCall` is
one `_offline_enqueue` call to the Offline Delivery Gateway, with its
outcome. -/
inductive Effect where
  | reply (m : Msg)
  | push (connId : Nat) (m : Msg)
  | pushFailed (connId : Nat) (m : Msg)
  | enqueueCall (fromUser toUser text : String) (ts : Int) (ok : Bool)
deriving DecidableEq, Repr

/-- Failure environment: which cross-connection writes succeed, whether
`save_contacts` succeeds, whether `_offline_enqueue` succeeds. -/
structure Env where
  writeOk : Nat → Bool
  persistOk : Bool
  enqueueOk : Bool

/-- Shared server state: `self._clients` (user ↦ connection id),
`self._status`, `self._contacts`. -/
structure ServerState where
  clients : Dict Nat
  status : Dict String
  contacts : Dict (List String)
deriving DecidableEq, Repr

/-- Result of one command step: new shared state, new value of the
handler-local `user` variable (`""` plays the role of Python's falsy
`None`/empty string — the two are indistinguishable to every `if user:`
test in the code), effects in order, and whether the handler survived the
step (`false` = an exception escaped to the `finally` block). -/
structure StepResult where
  state : ServerState
  user : String
  out : List Effect
  alive : Bool
deriving DecidableEq, Repr

/-- `conn.settimeout(120)` in `handle_client`. -/
def IDLE_TIMEOUT : Nat := 120

/-- Targets of `_presence_broadcast`: owners having `user` in their contact
set AND currently in `self._clients`, with their connection ids. -/
def broadcastTargets (st : ServerState) (user : String) : List (String × Nat) :=
  st.contacts.filterMap (fun p =>
    if user ∈ p.2 then
      match dictGet st.clients p.1 with
      | some cid => some (p.1, cid)
      | none => none
    else none)

/-- `_presence_broadcast(user, status)`: one attempted `PRESENCE` write per
target, failures swallowed (`except Exception: pass`). -/
def presenceBroadcast (env : Env) (st : ServerState) (user status : String) :
    List Effect :=
  (broadcastTargets st user).map (fun p =>
    if env.writeOk p.2 then Effect.push p.2 (Msg.PRESENCE user status)
    else Effect.pushFailed p.2 (Msg.PRESENCE user status))

/-- `_send_to_user(to_user, payload)`: write through the registered
connection if any, returning success and the attempted effect. -/
def sendToUser (env : Env) (st : ServerState) (toUser : String) (m : Msg) :
    Bool × List Effect :=
  match dictGet st.clients toUser with
  | none => (false, [])
  | some cid =>
      if env.writeOk cid then (true, [Effect.push cid m])
      else (false, [Effect.pushFailed cid m])

/-- `_is_online(user)`: declared ONLINE and holding a connection. -/
def isOnline (st : ServerState) (user : String) : Bool :=
  decide (dictGet st.status user = some "ONLINE") && (dictGet st.clients user).isSome

/-- One iteration of the `handle_client` command loop on a parsed request
(`src/chat_server.py`, lines 126–235), for the handler of connection
`connId` whose local `user` variable currently holds `user`. -/
def handleReq (env : Env) (connId : Nat) (st : ServerState) (user : String) :
    Req → StepResult
  | Req.REGISTER u =>
      let u' := pyStrip u
      if u' = "" then ⟨st, u', [Effect.reply (Msg.ERROR "user vazio")], true⟩
      else
        let clients := dictSet st.clients u' connId
        let status := dictSetdefault st.status u' "OFFLINE"
        let contacts := dictSetdefault st.contacts u' []
        let st' : ServerState := ⟨clients, status, contacts⟩
        if env.persistOk then
          let myContacts := dictGetD contacts u' []
          let clist := pySorted myContacts
          let pres := myContacts.map (fun c => (c, dictGetD status c "OFFLINE"))
          let cur := dictGetD status u' "OFFLINE"
          ⟨st', u',
            Effect.reply (Msg.REGISTERED u' cur clist pres)
              :: presenceBroadcast env st' u' cur,
            true⟩
        else ⟨st', u', [], false⟩
  | Req.SET_STATUS s =>
      if user = "" then ⟨st, user, [Effect.reply (Msg.ERROR "não registrado")], true⟩
      else
        let stt := pyUpper s
        if stt = "ONLINE" ∨ stt = "OFFLINE" then
          let st' : ServerState := { st with status := dictSet st.status user stt }
          ⟨st', user,
            Effect.reply (Msg.OK "SET_STATUS" stt) :: presenceBroadcast env st' user stt,
            true⟩
        else ⟨st, user, [Effect.reply (Msg.ERROR "status inválido")], true⟩
  | Req.ADD_CONTACT c =>
      if user = "" then ⟨st, user, [Effect.reply (Msg.ERROR "não registrado")], true⟩
      else
        let c' := pyStrip c
        if c' = "" ∨ c' = user then
          ⟨st, user, [Effect.reply (Msg.ERROR "contact inválido")], true⟩
        else
          let newSet := setAdd (dictGetD st.contacts user []) c'
          let contacts := dictSet st.contacts user newSet
          let st' : ServerState := { st with contacts := contacts }
          if env.persistOk then
            ⟨st', user,
              [Effect.reply (Msg.CONTACTS (pySorted newSet)
                (some [(c', dictGetD st.status c' "OFFLINE")]))],
              true⟩
          else ⟨st', user, [], false⟩
  | Req.REMOVE_CONTACT c =>
      if user = "" then ⟨st, user, [Effect.reply (Msg.ERROR "não registrado")], true⟩
      else
        let c' := pyStrip c
        let newSet := setDiscard (dictGetD st.contacts user []) c'
        let contacts := dictSet st.contacts user newSet
        let st' : ServerState := { st with contacts := contacts }
        if env.persistOk then
          ⟨st', user, [Effect.reply (Msg.CONTACTS (pySorted newSet) none)], true⟩
        else ⟨st', user, [], false⟩
  | Req.SEND toUser text ts =>
      if user = "" then ⟨st, user, [Effect.reply (Msg.ERROR "não registrado")], true⟩
      else
        let to' := pyStrip toUser
        if to' = "" ∨ text = "" then
          ⟨st, user, [Effect.reply (Msg.ERROR "to/text inválidos")], true⟩
        else
          if isOnline st to' then
            let r := sendToUser env st to' (Msg.DELIVER user text ts)
            if r.1 then
              ⟨st, user, r.2 ++ [Effect.reply (Msg.SENT "ONLINE")], true⟩
            else
              ⟨st, user,
                r.2 ++ [Effect.reply (Msg.SENT "OFFLINE"),
                  Effect.enqueueCall user to' text ts env.enqueueOk],
                true⟩
          else
            if env.enqueueOk then
              ⟨st, user,
                [Effect.enqueueCall user to' text ts true,
                  Effect.reply (Msg.SENT "OFFLINE")],
                true⟩
            else
              ⟨st, user,
                [Effect.enqueueCall user to' text ts false,
                  Effect.reply (Msg.ERROR "offline enqueue falhou")],
                true⟩
  | Req.UNKNOWN t =>
      ⟨st, user, [Effect.reply (Msg.ERROR ("tipo desconhecido: " ++ t))], true⟩

/-- The `finally` block of `handle_client` (lines 237–247): if the local
`user` is set, pop the session entry, force the presence to OFFLINE and
broadcast — unconditionally, with no check that the registry still maps
`user` to this handler's connection. -/
def cleanup (env : Env) (st : ServerState) (user : String) :
    ServerState × List Effect :=
  if user = "" then (st, [])
  else
    let st' : ServerState :=
      ⟨dictPop st.clients user, dictSet st.status user "OFFLINE", st.contacts⟩
    (st', presenceBroadcast env st' user "OFFLINE")

/-- What a handler thread consumes from its connection: a parsed command,
end of stream (`readline` returned `""`, i.e. `req is None`), a record the
reader fails on (JSON parse error or read error), or the idle-timeout
(`socket.timeout` after `IDLE_TIMEOUT` units without a complete command). -/
inductive Event where
  | cmd (r : Req)
  | eof
  | badRecord
  | timeout
deriving DecidableEq, Repr

/-- Final state and full effect trace of one handler thread. -/
structure RunResult where
  state : ServerState
  out : List Effect
deriving DecidableEq, Repr

/-- Session termination: run the `finally` cleanup. -/
def endSession (env : Env) (st : ServerState) (user : String) : RunResult :=
  ⟨(cleanup env st user).1, (cleanup env st user).2⟩

/-- The `handle_client` loop over a stream of events.  An exhausted event
list is a still-open session blocked on its next read (no cleanup yet); a
transport failure event ends the session through the cleanup, ignoring
everything after it, as does a step whose exception escaped the loop. -/
def runSession (env : Env) (connId : Nat) :
    ServerState → String → List Event → RunResult
  | st, _, [] => ⟨st, []⟩
  | st, user, Event.cmd r :: rest =>
      let s := handleReq env connId st user r
      if s.alive then
        let t := runSession env connId s.state s.user rest
        ⟨t.state, s.out ++ t.out⟩
      else
        ⟨(endSession env s.state s.user).state,
          s.out ++ (endSession env s.state s.user).out⟩
  | st, user, Event.eof :: _ => endSession env st user
  | st, user, Event.badRecord :: _ => endSession env st user
  | st, user, Event.timeout :: _ => endSession env st user

/-- Count of Offline Delivery Gateway enqueue calls in a trace. -/
def isEnqueueCall : Effect → Bool
  | Effect.enqueueCall _ _ _ _ _ => true
  | _ => false

/-- Number of gateway enqueue calls triggered in a trace. -/
def enqueueCalls (out : List Effect) : Nat := (out.filter isEnqueueCall).length

/-- Is this effect an `ERROR` record written on the handler's own
connection? -/
def isErrorReply : Effect → Bool
  | Effect.reply (Msg.ERROR _) => true
  | _ => false

/-- Is this effect a `SENT` acknowledgement on the handler's own
connection? -/
def isSentReply : Effect → Bool
  | Effect.reply (Msg.SENT _) => true
  | _ => false

/-- Is this effect any record written on the handler's own connection? -/
def isReply : Effect → Bool
  | Effect.reply _ => true
  | _ => false

/-! ### Offline server (`src/offline_server.py`) -/

/-- A message sitting in the broker queue as `basic_get` hands it over:
its delivery tag and its body, `some payload` when `json.loads` succeeds
on it and `none` when decoding raises. -/
structure RawMsg where
  tag : Nat
  payload : Option String
deriving DecidableEq, Repr

/-- Outcome of `RabbitMOM.fetch_all`: the `out` list it builds, the tags it
passed to `basic_ack`, and whether an exception escaped (a body whose
decoding raised — the ack in the `finally` still ran first). -/
structure FetchOutcome where
  out : List String
  acked : List Nat
  failed : Bool
deriving DecidableEq, Repr

/-- The `limit` default of `fetch_all`. -/
def FETCH_LIMIT : Nat := 500

/-- `RabbitMOM.fetch_all` (lines 109–125): up to `limit` `basic_get`s; each
dequeued message is acknowledged in a `finally`, whether or not its body
decodes; a decode failure propagates after the ack. -/
def fetch_all : List RawMsg → Nat → FetchOutcome
  | _, 0 => ⟨[], [], false⟩
  | [], _ + 1 => ⟨[], [], false⟩
  | m :: rest, n + 1 =>
      match m.payload with
      | some p =>
          let r := fetch_all rest n
          ⟨p :: r.out, m.tag :: r.acked, r.failed⟩
      | none => ⟨[], [m.tag], true⟩

/-- Replies of `OfflineServer.handle_client` relevant to FETCH. -/
inductive OfflineReply where
  | FETCH_RESULT (user : String) (messages : List String)
  | ERROR (message : String)
deriving DecidableEq, Repr

/-- The FETCH branch of `OfflineServer.handle_client` (lines 190–198) for a
non-empty user: run `fetch_all`; an escaped exception is caught and turned
into an `ERROR` reply, so the built list never reaches the client.  The
second component is the set of tags acknowledged at the broker either way. -/
def handleFetch (queue : List RawMsg) (user : String) : OfflineReply × List Nat :=
  let r := fetch_all queue FETCH_LIMIT
  (if r.failed then OfflineReply.ERROR "AMQP falhou"
   else OfflineReply.FETCH_RESULT user r.out, r.acked)

/-! ### Concrete fixtures used by counterexamples and witnesses -/

/-- Environment in which every write and persistence succeeds but the
Offline Delivery Gateway is unreachable. -/
def envNoGateway : Env := ⟨fun _ => true, true, false⟩

/-- Environment in which writes to connection 2 fail and the gateway is
unreachable; persistence succeeds. -/
def envConn2Down : Env := ⟨fun c => c ≠ 2, true, false⟩

/-- Environment in which everything succeeds. -/
def envAllOk : Env := ⟨fun _ => true, true, true⟩

/-- Environment in which only `save_contacts` fails. -/
def envNoPersist : Env := ⟨fun _ => true, false, true⟩

/-- State with `a` registered on connection 1 and declared ONLINE;
`b` unknown. -/
def stOnlyA : ServerState :=
  ⟨[("a", 1)], [("a", "ONLINE")], [("a", [])]⟩

/-- State with `a` on connection 1 and `b` on connection 2, both declared
ONLINE, empty contact graph. -/
def stAB : ServerState :=
  ⟨[("a", 1), ("b", 2)], [("a", "ONLINE"), ("b", "ONLINE")], []⟩

/-- The SEND delivery/acknowledgement contract (claim C1 as amended): for a
registered sender and non-empty recipient/text, the four possible outcomes
of the `SEND` branch, each with its exact reply and its exact number of
gateway enqueue calls; shared state is never mutated by SEND. -/
def sendSpec (env : Env) (cid : Nat) (st : ServerState)
    (u toU text : String) (ts : Int) : Prop :=
  ((handleReq env cid st u (Req.SEND toU text ts)).state = st) ∧
  (∀ rcid, isOnline st (pyStrip toU) = true →
    dictGet st.clients (pyStrip toU) = some rcid → env.writeOk rcid = true →
    handleReq env cid st u (Req.SEND toU text ts)
      = ⟨st, u, [Effect.push rcid (Msg.DELIVER u text ts),
          Effect.reply (Msg.SENT "ONLINE")], true⟩ ∧
    enqueueCalls (handleReq env cid st u (Req.SEND toU text ts)).out = 0) ∧
  (∀ rcid, isOnline st (pyStrip toU) = true →
    dictGet st.clients (pyStrip toU) = some rcid → env.writeOk rcid = false →
    handleReq env cid st u (Req.SEND toU text ts)
      = ⟨st, u, [Effect.pushFailed rcid (Msg.DELIVER u text ts),
          Effect.reply (Msg.SENT "OFFLINE"),
          Effect.enqueueCall u (pyStrip toU) text ts env.enqueueOk], true⟩ ∧
    enqueueCalls (handleReq env cid st u (Req.SEND toU text ts)).out = 1) ∧
  (isOnline st (pyStrip toU) = false → env.enqueueOk = true →
    handleReq env cid st u (Req.SEND toU text ts)
      = ⟨st, u, [Effect.enqueueCall u (pyStrip toU) text ts true,
          Effect.reply (Msg.SENT "OFFLINE")], true⟩ ∧
    enqueueCalls (handleReq env cid st u (Req.SEND toU text ts)).out = 1) ∧
  (isOnline st (pyStrip toU) = false → env.enqueueOk = false →
    handleReq env cid st u (Req.SEND toU text ts)
      = ⟨st, u, [Effect.enqueueCall u (pyStrip toU) text ts false,
          Effect.reply (Msg.ERROR "offline enqueue falhou")], true⟩ ∧
    enqueueCalls (handleReq env cid st u (Req.SEND toU text ts)).out = 1)

/-- The gateway-failure reporting behaviour (claim C2 as amended): with the
gateway down, the straight-to-gateway path replies with exactly one `ERROR`
record, while the path where a direct write to an online recipient failed
first swallows the gateway failure — no `ERROR`, the sender keeps
`SENT{mode=OFFLINE}` — though the single enqueue call was made. -/
def gatewayFailSpec (env : Env) (cid : Nat) (st : ServerState)
    (u toU text : String) (ts : Int) : Prop :=
  (isOnline st (pyStrip toU) = false →
    enqueueCalls (handleReq env cid st u (Req.SEND toU text ts)).out = 1 ∧
    (handleReq env cid st u (Req.SEND toU text ts)).out.filter isErrorReply
      = [Effect.reply (Msg.ERROR "offline enqueue falhou")]) ∧
  (∀ rcid, isOnline st (pyStrip toU) = true →
    dictGet st.clients (pyStrip toU) = some rcid → env.writeOk rcid = false →
    enqueueCalls (handleReq env cid st u (Req.SEND toU text ts)).out = 1 ∧
    (handleReq env cid st u (Req.SEND toU text ts)).out.filter isErrorReply = [] ∧
    (handleReq env cid st u (Req.SEND toU text ts)).out.filter isSentReply
      = [Effect.reply (Msg.SENT "OFFLINE")])

/-- The presence fan-out contract (claim C3): the attempted targets are
exactly the connected owners whose contact set contains the subject; each
target whose own write succeeds receives the notification regardless of
every other target's write outcome; and the fan-out consists only of
`PRESENCE` pushes — no reply and no `ERROR` on the subject's connection. -/
def broadcastSpec (env : Env) (st : ServerState) (u s : String) : Prop :=
  (∀ owner, (∃ cid, (owner, cid) ∈ broadcastTargets st u) ↔
    (∃ fr, dictGet st.contacts owner = some fr ∧ u ∈ fr ∧
      (dictGet st.clients owner).isSome = true)) ∧
  (∀ owner cid, (owner, cid) ∈ broadcastTargets st u → env.writeOk cid = true →
    Effect.push cid (Msg.PRESENCE u s) ∈ presenceBroadcast env st u s) ∧
  (∀ e ∈ presenceBroadcast env st u s,
    (∃ cid, env.writeOk cid = true ∧ e = Effect.push cid (Msg.PRESENCE u s)) ∨
    (∃ cid, env.writeOk cid = false ∧ e = Effect.pushFailed cid (Msg.PRESENCE u s))) ∧
  (∀ e ∈ presenceBroadcast env st u s, isReply e = false ∧ isErrorReply e = false)

/-- The duplicate-REGISTER supersession contract (claim C4): after a
REGISTER for `u` on connection `cid2`, the registry maps `u` to `cid2`,
still with a single binding, and every direct delivery to `u` lands on
`cid2` alone. -/
def registerSupersedeSpec (env : Env) (cid2 : Nat) (st : ServerState)
    (prev u : String) : Prop :=
  dictGet (handleReq env cid2 st prev (Req.REGISTER u)).state.clients u = some cid2 ∧
  nodupKeys (handleReq env cid2 st prev (Req.REGISTER u)).state.clients ∧
  countKey (handleReq env cid2 st prev (Req.REGISTER u)).state.clients u = 1 ∧
  (∀ m, env.writeOk cid2 = true →
    sendToUser env (handleReq env cid2 st prev (Req.REGISTER u)).state u m
      = (true, [Effect.push cid2 m]))

/-- The persistence-failure behaviour (claim C5 as amended) on each of the
three mutating requests that call `save_contacts` — ADD_CONTACT,
REMOVE_CONTACT and REGISTER (the latter issued on a connection whose local
user is `prev`): the in-memory mutation stays, but nothing at all is sent
to the caller and the handler terminates — the rest of the input stream is
ignored and the `finally` cleanup runs.  Each step's full result is pinned:
the mutated state, the surviving local `user`, an empty output and
`alive = false`. -/
def persistFailSpec (env : Env) (cid : Nat) (st : ServerState)
    (prev u c : String) : Prop :=
  (handleReq env cid st u (Req.ADD_CONTACT c)
    = ⟨{ st with contacts :=
          dictSet st.contacts u (setAdd (dictGetD st.contacts u []) c) },
        u, [], false⟩) ∧
  (∀ rest, runSession env cid st u (Event.cmd (Req.ADD_CONTACT c) :: rest)
    = endSession env (handleReq env cid st u (Req.ADD_CONTACT c)).state u) ∧
  (handleReq env cid st u (Req.REMOVE_CONTACT c)
    = ⟨{ st with contacts :=
          dictSet st.contacts u (setDiscard (dictGetD st.contacts u []) c) },
        u, [], false⟩) ∧
  (∀ rest, runSession env cid st u (Event.cmd (Req.REMOVE_CONTACT c) :: rest)
    = endSession env (handleReq env cid st u (Req.REMOVE_CONTACT c)).state u) ∧
  (handleReq env cid st prev (Req.REGISTER u)
    = ⟨⟨dictSet st.clients u cid, dictSetdefault st.status u "OFFLINE",
        dictSetdefault st.contacts u []⟩, u, [], false⟩) ∧
  (∀ rest, runSession env cid st prev (Event.cmd (Req.REGISTER u) :: rest)
    = endSession env (handleReq env cid st prev (Req.REGISTER u)).state u)

/-- The contact-list algebra (claim C6): ADD_CONTACT twice equals once;
ADD_CONTACT of oneself is a validation error with no state change;
REMOVE_CONTACT of an absent contact succeeds and changes nothing. -/
def contactAlgebraSpec (env : Env) (cid : Nat) (st : ServerState) (u c : String) : Prop :=
  ((handleReq env cid (handleReq env cid st u (Req.ADD_CONTACT c)).state u
      (Req.ADD_CONTACT c)).state
    = (handleReq env cid st u (Req.ADD_CONTACT c)).state) ∧
  (handleReq env cid st u (Req.ADD_CONTACT u)
    = ⟨st, u, [Effect.reply (Msg.ERROR "contact inválido")], true⟩) ∧
  (∀ l, dictGet st.contacts u = some l → c ∉ l →
    handleReq env cid st u (Req.REMOVE_CONTACT c)
      = ⟨st, u, [Effect.reply (Msg.CONTACTS (pySorted l) none)], true⟩)

/-- The SET_STATUS validation contract (claim C7 as amended): a value is
accepted exactly when its uppercased form is `ONLINE` or `OFFLINE`; any
other value is answered with a validation error, leaving the whole shared
state untouched and the connection open. -/
def statusValidationSpec (env : Env) (cid : Nat) (st : ServerState) (u s : String) : Prop :=
  (pyUpper s = "ONLINE" ∨ pyUpper s = "OFFLINE" →
    handleReq env cid st u (Req.SET_STATUS s)
      = ⟨{ st with status := dictSet st.status u (pyUpper s) }, u,
          Effect.reply (Msg.OK "SET_STATUS" (pyUpper s))
            :: presenceBroadcast env
                { st with status := dictSet st.status u (pyUpper s) } u (pyUpper s),
          true⟩) ∧
  (¬(pyUpper s = "ONLINE" ∨ pyUpper s = "OFFLINE") →
    handleReq env cid st u (Req.SET_STATUS s)
      = ⟨st, u, [Effect.reply (Msg.ERROR "status inválido")], true⟩)

/-- The transport-failure termination contract (claim C8): on end of
stream, an unreadable/unparseable record, or the idle timeout, the session
ends through the cleanup: nothing more is sent on the handler's own
connection, the registry entry of the registered identity is gone, its
presence is forced OFFLINE, and the corresponding fan-out is the entire
remaining output. -/
def closeSpec (env : Env) (cid : Nat) (st : ServerState) (user : String)
    (ev : Event) (rest : List Event) : Prop :=
  (runSession env cid st user (ev :: rest) = endSession env st user) ∧
  (∀ e ∈ (runSession env cid st user (ev :: rest)).out, isReply e = false) ∧
  (user ≠ "" →
    dictGet (runSession env cid st user (ev :: rest)).state.clients user = none ∧
    dictGet (runSession env cid st user (ev :: rest)).state.status user = some "OFFLINE" ∧
    (runSession env cid st user (ev :: rest)).out
      = presenceBroadcast env
          ⟨dictPop st.clients user, dictSet st.status user "OFFLINE", st.contacts⟩
          user "OFFLINE") ∧
  (user = "" → runSession env cid st user (ev :: rest) = ⟨st, []⟩) ∧
  IDLE_TIMEOUT = 120

/-- The fetch acknowledgement behaviour (claim C9 as amended): every
dequeued message is acknowledged at once — in particular an undecodable
one, which is then never part of any result: the client gets an `ERROR`
while the broker has already discarded the message; on a failure-free
fetch the acknowledged tags are exactly those of the returned prefix. -/
def fetchAckSpec (q₁ q₂ : List RawMsg) (m : RawMsg) (u : String) : Prop :=
  m.tag ∈ (fetch_all (q₁ ++ m :: q₂) FETCH_LIMIT).acked ∧
  (handleFetch (q₁ ++ m :: q₂) u).1 = OfflineReply.ERROR "AMQP falhou" ∧
  (handleFetch (q₁ ++ m :: q₂) u).2 = (fetch_all (q₁ ++ m :: q₂) FETCH_LIMIT).acked ∧
  (∀ q k, (fetch_all q k).failed = false →
    (fetch_all q k).acked = (q.take k).map RawMsg.tag ∧
    (fetch_all q k).out = (q.take k).filterMap RawMsg.payload)

/-- The unconditional-cleanup behaviour (claim C10): the `finally` block of
a terminating handler pops its identity's registry entry, forces the
presence OFFLINE and broadcasts — `cleanup` does not even receive the
dying handler's connection id, so the entry is removed even when it points
at a newer connection. -/
def cleanupUncondSpec (env : Env) (st : ServerState) (u : String) : Prop :=
  (cleanup env st u).1.clients = dictPop st.clients u ∧
  dictGet (cleanup env st u).1.clients u = none ∧
  dictGet (cleanup env st u).1.status u = some "OFFLINE" ∧
  (cleanup env st u).2
    = presenceBroadcast env
        ⟨dictPop st.clients u, dictSet st.status u "OFFLINE", st.contacts⟩ u "OFFLINE"

/-! ### Helper lemmas about the dict and set models -/

theorem dictGet_dictSet_self {α : Type} (d : Dict α) (k : String) (v : α) :
    dictGet (dictSet d k v) k = some v := by
  induction d with
  | nil => simp [dictSet, dictGet]
  | cons p d ih =>
      obtain ⟨k', v'⟩ := p
      by_cases h : k' = k
      · simp [dictSet, h, dictGet]
      · simp [dictSet, h, dictGet, ih]

theorem dictGet_eq_none {α : Type} {d : Dict α} {k : String}
    (h : k ∉ d.map Prod.fst) : dictGet d k = none := by
  induction d with
  | nil => rfl
  | cons p d ih =>
      obtain ⟨k', v'⟩ := p
      simp only [List.map_cons, List.mem_cons, not_or] at h
      have hne : k' ≠ k := Ne.symm h.1
      simp [dictGet, hne, ih h.2]

theorem keys_dictSet {α : Type} (d : Dict α) (k : String) (v : α) :
    (dictSet d k v).map Prod.fst =
      if k ∈ d.map Prod.fst then d.map Prod.fst else d.map Prod.fst ++ [k] := by
  induction d with
  | nil => simp [dictSet]
  | cons p d ih =>
      obtain ⟨k', v'⟩ := p
      by_cases h : k' = k
      · subst h; simp [dictSet]
      · by_cases h2 : k ∈ d.map Prod.fst <;>
          simp [dictSet, h, ih, h2, Ne.symm h]

theorem nodupKeys_dictSet {α : Type} {d : Dict α} (k : String) (v : α)
    (h : nodupKeys d) : nodupKeys (dictSet d k v) := by
  unfold nodupKeys at *
  rw [keys_dictSet]
  by_cases h2 : k ∈ d.map Prod.fst
  · simpa [h2]
  · simp [h2, List.nodup_append, h]

theorem countKey_eq_zero {α : Type} {d : Dict α} {k : String}
    (h : k ∉ d.map Prod.fst) : countKey d k = 0 := by
  induction d with
  | nil => rfl
  | cons p d ih =>
      obtain ⟨k', v'⟩ := p
      simp only [List.map_cons, List.mem_cons, not_or] at h
      have hne : ¬(k' = k) := Ne.symm h.1
      have hz := ih h.2
      unfold countKey at hz ⊢
      simp [List.filter_cons, hne, hz]

theorem countKey_dictSet_self {α : Type} {d : Dict α} (k : String) (v : α)
    (h : nodupKeys d) : countKey (dictSet d k v) k = 1 := by
  induction d with
  | nil => simp [dictSet, countKey]
  | cons p d ih =>
      obtain ⟨k', v'⟩ := p
      unfold nodupKeys at h
      simp only [List.map_cons, List.nodup_cons] at h
      by_cases hk : k' = k
      · subst hk
        have h0 : countKey d k' = 0 := countKey_eq_zero h.1
        simp [dictSet, countKey, List.filter_cons] at h0 ⊢
        exact h0
      · have h1 := ih h.2
        simp [dictSet, hk, countKey, List.filter_cons] at h1 ⊢
        simpa [hk] using h1

theorem dictSet_eq_of_get {α : Type} {d : Dict α} {k : String} {v : α}
    (h : dictGet d k = some v) : dictSet d k v = d := by
  induction d with
  | nil => simp [dictGet] at h
  | cons p d ih =>
      obtain ⟨k', v'⟩ := p
      by_cases hk : k' = k
      · subst hk
        simp [dictGet] at h
        subst h
        simp [dictSet]
      · simp [dictGet, hk] at h
        simp [dictSet, hk, ih h]

theorem dictGet_dictPop_self {α : Type} {d : Dict α} {k : String}
    (h : nodupKeys d) : dictGet (dictPop d k) k = none := by
  induction d with
  | nil => rfl
  | cons p d ih =>
      obtain ⟨k', v'⟩ := p
      unfold nodupKeys at h
      simp only [List.map_cons, List.nodup_cons] at h
      by_cases hk : k' = k
      · subst hk
        simpa [dictPop] using dictGet_eq_none h.1
      · simp [dictPop, hk, dictGet, ih h.2]

theorem dictGet_eq_some_of_mem {α : Type} {d : Dict α} {k : String} {v : α}
    (h : nodupKeys d) (hm : (k, v) ∈ d) : dictGet d k = some v := by
  induction d with
  | nil => simp at hm
  | cons p d ih =>
      obtain ⟨k', v'⟩ := p
      unfold nodupKeys at h
      simp only [List.map_cons, List.nodup_cons] at h
      rcases List.mem_cons.mp hm with he | hm'
      · cases he
        simp [dictGet]
      · have hne : k' ≠ k := by
          intro hkk
          subst hkk
          exact h.1 (List.mem_map_of_mem Prod.fst hm')
        simp [dictGet, hne, ih h.2 hm']

theorem mem_of_dictGet_eq_some {α : Type} {d : Dict α} {k : String} {v : α}
    (h : dictGet d k = some v) : (k, v) ∈ d := by
  induction d with
  | nil => simp [dictGet] at h
  | cons p d ih =>
      obtain ⟨k', v'⟩ := p
      by_cases hk : k' = k
      · subst hk
        simp [dictGet] at h
        subst h
        exact List.mem_cons_self _ _
      · simp [dictGet, hk] at h
        exact List.mem_cons_of_mem _ (ih h)

theorem mem_setAdd_self (s : List String) (x : String) : x ∈ setAdd s x := by
  unfold setAdd
  by_cases h : x ∈ s <;> simp [h]

theorem setAdd_idem (s : List String) (x : String) :
    setAdd (setAdd s x) x = setAdd s x := by
  unfold setAdd
  by_cases h : x ∈ s <;> simp [h]

theorem setDiscard_of_not_mem {s : List String} {x : String} (h : x ∉ s) :
    setDiscard s x = s := by
  unfold setDiscard
  refine List.filter_eq_self.mpr ?_
  intro a ha
  simp only [ne_eq, decide_not, Bool.not_eq_true', decide_eq_false_iff_not]
  exact fun he => h (he ▸ ha)

/-! ### Helper lemmas about the presence fan-out -/

theorem mem_broadcastTargets {st : ServerState} {u owner : String} {cid : Nat} :
    (owner, cid) ∈ broadcastTargets st u ↔
      ∃ fr, (owner, fr) ∈ st.contacts ∧ u ∈ fr ∧
        dictGet st.clients owner = some cid := by
  unfold broadcastTargets
  rw [List.mem_filterMap]
  constructor
  · rintro ⟨⟨o, fr⟩, hmem, hf⟩
    dsimp only at hf
    by_cases hu : u ∈ fr
    · rw [if_pos hu] at hf
      cases hg : dictGet st.clients o with
      | none => rw [hg] at hf; simp at hf
      | some c =>
          rw [hg] at hf
          simp only [Option.some.injEq, Prod.mk.injEq] at hf
          obtain ⟨rfl, rfl⟩ := hf
          exact ⟨fr, hmem, hu, hg⟩
    · rw [if_neg hu] at hf
      simp at hf
  · rintro ⟨fr, hmem, hu, hg⟩
    exact ⟨(owner, fr), hmem, by simp [hu, hg]⟩

theorem presenceBroadcast_mem_shape {env : Env} {st : ServerState} {u s : String}
    {e : Effect} (he : e ∈ presenceBroadcast env st u s) :
    (∃ cid, env.writeOk cid = true ∧ e = Effect.push cid (Msg.PRESENCE u s)) ∨
    (∃ cid, env.writeOk cid = false ∧ e = Effect.pushFailed cid (Msg.PRESENCE u s)) := by
  unfold presenceBroadcast at he
  rw [List.mem_map] at he
  obtain ⟨⟨o, cid⟩, _, rfl⟩ := he
  by_cases hw : env.writeOk cid = true
  · exact Or.inl ⟨cid, hw, by simp [hw]⟩
  · have hw' : env.writeOk cid = false := by simpa using hw
    exact Or.inr ⟨cid, hw', by simp [hw']⟩

theorem presenceBroadcast_push_of_target {env : Env} {st : ServerState}
    {u s owner : String} {cid : Nat}
    (ht : (owner, cid) ∈ broadcastTargets st u) (hw : env.writeOk cid = true) :
    Effect.push cid (Msg.PRESENCE u s) ∈ presenceBroadcast env st u s := by
  unfold presenceBroadcast
  rw [List.mem_map]
  exact ⟨(owner, cid), ht, by simp [hw]⟩

theorem presenceBroadcast_no_reply {env : Env} {st : ServerState} {u s : String} :
    ∀ e ∈ presenceBroadcast env st u s, isReply e = false := by
  intro e he
  rcases presenceBroadcast_mem_shape he with ⟨cid, _, rfl⟩ | ⟨cid, _, rfl⟩ <;> rfl

/-! ### Helper lemmas: the four outcomes of the SEND branch -/

theorem handleReq_SEND_online_ok {env : Env} {cid : Nat} {st : ServerState}
    {u toU text : String} {ts : Int} {rcid : Nat}
    (hu : u ≠ "") (hto : pyStrip toU ≠ "") (htext : text ≠ "")
    (hon : isOnline st (pyStrip toU) = true)
    (hget : dictGet st.clients (pyStrip toU) = some rcid)
    (hw : env.writeOk rcid = true) :
    handleReq env cid st u (Req.SEND toU text ts)
      = ⟨st, u, [Effect.push rcid (Msg.DELIVER u text ts),
          Effect.reply (Msg.SENT "ONLINE")], true⟩ := by
  simp [handleReq, hu, hto, htext, hon, sendToUser, hget, hw]

theorem handleReq_SEND_online_fail {env : Env} {cid : Nat} {st : ServerState}
    {u toU text : String} {ts : Int} {rcid : Nat}
    (hu : u ≠ "") (hto : pyStrip toU ≠ "") (htext : text ≠ "")
    (hon : isOnline st (pyStrip toU) = true)
    (hget : dictGet st.clients (pyStrip toU) = some rcid)
    (hw : env.writeOk rcid = false) :
    handleReq env cid st u (Req.SEND toU text ts)
      = ⟨st, u, [Effect.pushFailed rcid (Msg.DELIVER u text ts),
          Effect.reply (Msg.SENT "OFFLINE"),
          Effect.enqueueCall u (pyStrip toU) text ts env.enqueueOk], true⟩ := by
  simp [handleReq, hu, hto, htext, hon, sendToUser, hget, hw]

theorem handleReq_SEND_offline_ok {env : Env} {cid : Nat} {st : ServerState}
    {u toU text : String} {ts : Int}
    (hu : u ≠ "") (hto : pyStrip toU ≠ "") (htext : text ≠ "")
    (hon : isOnline st (pyStrip toU) = false) (hq : env.enqueueOk = true) :
    handleReq env cid st u (Req.SEND toU text ts)
      = ⟨st, u, [Effect.enqueueCall u (pyStrip toU) text ts true,
          Effect.reply (Msg.SENT "OFFLINE")], true⟩ := by
  simp [handleReq, hu, hto, htext, hon, hq]

theorem handleReq_SEND_offline_fail {env : Env} {cid : Nat} {st : ServerState}
    {u toU text : String} {ts : Int}
    (hu : u ≠ "") (hto : pyStrip toU ≠ "") (htext : text ≠ "")
    (hon : isOnline st (pyStrip toU) = false) (hq : env.enqueueOk = false) :
    handleReq env cid st u (Req.SEND toU text ts)
      = ⟨st, u, [Effect.enqueueCall u (pyStrip toU) text ts false,
          Effect.reply (Msg.ERROR "offline enqueue falhou")], true⟩ := by
  simp [handleReq, hu, hto, htext, hon, hq]

/-! ### Helper lemmas: ADD_CONTACT step and the fetch loop -/

theorem handleReq_ADD_CONTACT_eq {env : Env} {cid : Nat} {st : ServerState}
    {u c : String}
    (hu : u ≠ "") (hct : pyStrip c = c) (hc0 : c ≠ "") (hcu : c ≠ u)
    (hp : env.persistOk = true) :
    handleReq env cid st u (Req.ADD_CONTACT c)
      = ⟨{ st with contacts :=
            dictSet st.contacts u (setAdd (dictGetD st.contacts u []) c) }, u,
          [Effect.reply (Msg.CONTACTS
            (pySorted (setAdd (dictGetD st.contacts u []) c))
            (some [(c, dictGetD st.status c "OFFLINE")]))], true⟩ := by
  simp [handleReq, hu, hct, hc0, hcu, hp]

theorem fetch_all_bad_prefix {q₁ : List RawMsg} {m : RawMsg} (q₂ : List RawMsg)
    {n : Nat} (hq : ∀ x ∈ q₁, (x.payload).isSome = true) (hm : m.payload = none)
    (hlen : q₁.length < n) :
    (fetch_all (q₁ ++ m :: q₂) n).failed = true ∧
    m.tag ∈ (fetch_all (q₁ ++ m :: q₂) n).acked := by
  induction q₁ generalizing n with
  | nil =>
      cases n with
      | zero => exact absurd hlen (by simp)
      | succ k => simp [fetch_all, hm]
  | cons x q₁ ih =>
      cases n with
      | zero => exact absurd hlen (by simp)
      | succ k =>
          have hx : (x.payload).isSome = true := hq x (List.mem_cons_self _ _)
          obtain ⟨p, hp⟩ := Option.isSome_iff_exists.mp hx
          have hlen' : q₁.length < k := by simpa using hlen
          have ihk := ih (fun y hy => hq y (List.mem_cons_of_mem _ hy)) hlen'
          simp [fetch_all, hp, ihk.1, ihk.2]

theorem fetch_all_clean (q : List RawMsg) (k : Nat)
    (h : (fetch_all q k).failed = false) :
    (fetch_all q k).acked = (q.take k).map RawMsg.tag ∧
    (fetch_all q k).out = (q.take k).filterMap RawMsg.payload := by
  induction q generalizing k with
  | nil => cases k <;> simp [fetch_all]
  | cons m rest ih =>
      cases k with
      | zero => simp [fetch_all]
      | succ k' =>
          cases hp : m.payload with
          | none => simp [fetch_all, hp] at h
          | some p =>
              have h' : (fetch_all rest k').failed = false := by
                simpa [fetch_all, hp] using h
              obtain ⟨ha, ho⟩ := ih k' h'
              simp [fetch_all, hp, ha, ho]

/-! ## Claims -/

/-- Claim C1 counterexample: a SEND from registered `a` to recipient `b`
who is disconnected, with the Offline Delivery Gateway down, makes the one
gateway call but acknowledges the sender with an `ERROR` record — not with
`SENT{mode=OFFLINE}` as the claim states for every not-online recipient. -/
theorem claim_C1_cex :
    handleReq envNoGateway 1 stOnlyA "a" (Req.SEND "b" "hi" 0)
      = ⟨stOnlyA, "a", [Effect.enqueueCall "a" "b" "hi" 0 false,
          Effect.reply (Msg.ERROR "offline enqueue falhou")], true⟩ ∧
    (handleReq envNoGateway 1 stOnlyA "a" (Req.SEND "b" "hi" 0)).out.filter
        isSentReply = [] ∧
    enqueueCalls (handleReq envNoGateway 1 stOnlyA "a" (Req.SEND "b" "hi" 0)).out
      = 1 := by
  decide

/-- Claim C1 as amended: for a registered sender with non-empty recipient
and text, SEND to a connected ONLINE recipient whose write succeeds yields
`SENT{mode=ONLINE}` and zero gateway calls; if the direct write fails the
sender gets `SENT{mode=OFFLINE}` and exactly one gateway call regardless of
the gateway's outcome; if the recipient is disconnected or not ONLINE there
is exactly one gateway call and the sender gets `SENT{mode=OFFLINE}` when
it succeeds but an `ERROR` record when it fails.  An ONLINE acknowledgement
is sent only for an actually successful direct write. -/
theorem claim_C1 (env : Env) (cid : Nat) (st : ServerState)
    (u toU text : String) (ts : Int)
    (hu : u ≠ "") (hto : pyStrip toU ≠ "") (htext : text ≠ "") :
    sendSpec env cid st u toU text ts := by
  unfold sendSpec
  refine ⟨?_, ?_, ?_, ?_, ?_⟩
  · by_cases hon : isOnline st (pyStrip toU) = true
    · cases hg : dictGet st.clients (pyStrip toU) with
      | none =>
          unfold isOnline at hon
          rw [hg] at hon
          simp at hon
      | some rcid =>
          by_cases hw : env.writeOk rcid = true
          · rw [handleReq_SEND_online_ok hu hto htext hon hg hw]
          · rw [handleReq_SEND_online_fail hu hto htext hon hg (by simpa using hw)]
    · have hon' : isOnline st (pyStrip toU) = false := by simpa using hon
      by_cases hq : env.enqueueOk = true
      · rw [handleReq_SEND_offline_ok hu hto htext hon' hq]
      · rw [handleReq_SEND_offline_fail hu hto htext hon' (by simpa using hq)]
  · intro rcid hon hg hw
    rw [handleReq_SEND_online_ok hu hto htext hon hg hw]
    exact ⟨rfl, rfl⟩
  · intro rcid hon hg hw
    rw [handleReq_SEND_online_fail hu hto htext hon hg hw]
    exact ⟨rfl, rfl⟩
  · intro hon hq
    rw [handleReq_SEND_offline_ok hu hto htext hon hq]
    exact ⟨rfl, rfl⟩
  · intro hon hq
    rw [handleReq_SEND_offline_fail hu hto htext hon hq]
    exact ⟨rfl, rfl⟩

/-- Claim C1 witness: the amended SEND contract at a concrete two-user
state. -/
theorem claim_C1_witness :
    (("a" : String) ≠ "" ∧ pyStrip "b" ≠ "" ∧ ("hi" : String) ≠ "") ∧
    sendSpec envAllOk 1 stAB "a" "b" "hi" 0 :=
  ⟨⟨by decide, by decide, by decide⟩,
    claim_C1 envAllOk 1 stAB "a" "b" "hi" 0 (by decide) (by decide) (by decide)⟩

/-- Claim C2 counterexample: `a` SENDs to `b`, who is registered and ONLINE
but whose connection rejects the write; the fallback gateway call also
fails, yet the trace contains no `ERROR` record — the message is silently
discarded while the sender keeps `SENT{mode=OFFLINE}`. -/
theorem claim_C2_cex :
    handleReq envConn2Down 1 stAB "a" (Req.SEND "b" "hi" 0)
      = ⟨stAB, "a", [Effect.pushFailed 2 (Msg.DELIVER "a" "hi" 0),
          Effect.reply (Msg.SENT "OFFLINE"),
          Effect.enqueueCall "a" "b" "hi" 0 false], true⟩ ∧
    (handleReq envConn2Down 1 stAB "a" (Req.SEND "b" "hi" 0)).out.filter
        isErrorReply = [] ∧
    enqueueCalls (handleReq envConn2Down 1 stAB "a" (Req.SEND "b" "hi" 0)).out
      = 1 := by
  decide

/-- Claim C2 as amended: with the gateway failing, only the
straight-to-gateway path (recipient disconnected or not ONLINE) reports a
delivery failure to the sender via an `ERROR` record; on the path where a
direct write to an ONLINE recipient failed first, the gateway failure is
swallowed — no `ERROR` is ever sent there, the sender having already
received `SENT{mode=OFFLINE}` — although the single enqueue call is made. -/
theorem claim_C2 (env : Env) (cid : Nat) (st : ServerState)
    (u toU text : String) (ts : Int)
    (hu : u ≠ "") (hto : pyStrip toU ≠ "") (htext : text ≠ "")
    (hgw : env.enqueueOk = false) :
    gatewayFailSpec env cid st u toU text ts := by
  unfold gatewayFailSpec
  constructor
  · intro hon
    rw [handleReq_SEND_offline_fail hu hto htext hon hgw]
    exact ⟨rfl, rfl⟩
  · intro rcid hon hg hw
    rw [handleReq_SEND_online_fail hu hto htext hon hg hw]
    exact ⟨rfl, rfl, rfl⟩

/-- Claim C2 witness: the amended gateway-failure contract at a concrete
two-user state with connection 2 down and the gateway down. -/
theorem claim_C2_witness :
    (envConn2Down.enqueueOk = false) ∧
    gatewayFailSpec envConn2Down 1 stAB "a" "b" "hi" 0 :=
  ⟨rfl, claim_C2 envConn2Down 1 stAB "a" "b" "hi" 0
    (by decide) (by decide) (by decide) rfl⟩

/-- Claim C3: the presence fan-out attempts delivery to exactly the set of
connected owners whose contact set contains the subject and to nobody
else; every target whose own write succeeds receives the notification
whatever happens to the other targets' writes; and the fan-out consists
exclusively of `PRESENCE` pushes — it never produces a reply or an `ERROR`
on the subject's own connection.  In addition, a valid SET_STATUS emits
its `OK` reply followed by exactly this fan-out computed on the updated
state. -/
theorem claim_C3 (env : Env) (st : ServerState) (u s : String)
    (hnd : nodupKeys st.contacts) :
    broadcastSpec env st u s ∧
    (∀ cid v, u ≠ "" → pyUpper v = s → s = "ONLINE" ∨ s = "OFFLINE" →
      (handleReq env cid st u (Req.SET_STATUS v)).out
        = Effect.reply (Msg.OK "SET_STATUS" s)
            :: presenceBroadcast env
                { st with status := dictSet st.status u s } u s) := by
  constructor
  · unfold broadcastSpec
    refine ⟨?_, ?_, ?_, ?_⟩
    · intro owner
      constructor
      · rintro ⟨cid, hmem⟩
        obtain ⟨fr, hfr, hufr, hg⟩ := mem_broadcastTargets.mp hmem
        exact ⟨fr, dictGet_eq_some_of_mem hnd hfr, hufr, by simp [hg]⟩
      · rintro ⟨fr, hfr, hufr, hg⟩
        cases hc : dictGet st.clients owner with
        | none => rw [hc] at hg; simp at hg
        | some cid =>
            exact ⟨cid, mem_broadcastTargets.mpr
              ⟨fr, mem_of_dictGet_eq_some hfr, hufr, hc⟩⟩
    · intro owner cid hmem hw
      exact presenceBroadcast_push_of_target hmem hw
    · intro e he
      exact presenceBroadcast_mem_shape he
    · intro e he
      rcases presenceBroadcast_mem_shape he with ⟨cid, _, rfl⟩ | ⟨cid, _, rfl⟩ <;>
        exact ⟨rfl, rfl⟩
  · intro cid v hu hv hs
    rcases hs with hs | hs <;> subst hs <;> simp [handleReq, hu, hv]

/-- Claim C3 witness: the fan-out contract at a concrete state where `b`
and `c` both list `a` as a contact but only `b` is connected. -/
theorem claim_C3_witness :
    nodupKeys (ServerState.mk [("a", 1), ("b", 2)]
      [("a", "ONLINE")] [("b", ["a"]), ("c", ["a"])]).contacts ∧
    (broadcastSpec envAllOk
      (ServerState.mk [("a", 1), ("b", 2)] [("a", "ONLINE")]
        [("b", ["a"]), ("c", ["a"])]) "a" "OFFLINE" ∧
    (∀ cid v, ("a" : String) ≠ "" → pyUpper v = "OFFLINE" →
      ("OFFLINE" : String) = "ONLINE" ∨ ("OFFLINE" : String) = "OFFLINE" →
      (handleReq envAllOk cid
          (ServerState.mk [("a", 1), ("b", 2)] [("a", "ONLINE")]
            [("b", ["a"]), ("c", ["a"])]) "a" (Req.SET_STATUS v)).out
        = Effect.reply (Msg.OK "SET_STATUS" "OFFLINE")
            :: presenceBroadcast envAllOk
                { ServerState.mk [("a", 1), ("b", 2)] [("a", "ONLINE")]
                    [("b", ["a"]), ("c", ["a"])] with
                  status := dictSet [("a", "ONLINE")] "a" "OFFLINE" } "a" "OFFLINE")) :=
  ⟨by decide,
    claim_C3 envAllOk
      (ServerState.mk [("a", 1), ("b", 2)] [("a", "ONLINE")]
        [("b", ["a"]), ("c", ["a"])]) "a" "OFFLINE" (by decide)⟩

/-- Claim C4: a second REGISTER for `u` (here arriving on connection
`cid2` while the registry still maps `u` to `cid1`) makes `cid2` the
exclusive delivery target: the registry maps `u` to `cid2`, keeps a single
binding for `u`, and a subsequent direct delivery to `u` is written only
to `cid2`. -/
theorem claim_C4 (env : Env) (st : ServerState) (prev u : String)
    (cid1 cid2 : Nat)
    (hut : pyStrip u = u) (hu : u ≠ "")
    (_hold : dictGet st.clients u = some cid1) (hnd : nodupKeys st.clients) :
    registerSupersedeSpec env cid2 st prev u := by
  have hst : (handleReq env cid2 st prev (Req.REGISTER u)).state.clients
      = dictSet st.clients u cid2 := by
    by_cases hp : env.persistOk = true <;> simp [handleReq, hut, hu, hp]
  unfold registerSupersedeSpec
  refine ⟨?_, ?_, ?_, ?_⟩
  · rw [hst]
    exact dictGet_dictSet_self _ _ _
  · rw [hst]
    exact nodupKeys_dictSet _ _ hnd
  · rw [hst]
    exact countKey_dictSet_self _ _ hnd
  · intro m hw
    simp [sendToUser, hst, dictGet_dictSet_self, hw]

/-- Claim C4 witness: re-registration of `a` on connection 2 while
connection 1 still holds the mapping. -/
theorem claim_C4_witness :
    (pyStrip "a" = "a" ∧ ("a" : String) ≠ "" ∧
      dictGet stOnlyA.clients "a" = some 1 ∧ nodupKeys stOnlyA.clients) ∧
    registerSupersedeSpec envAllOk 2 stOnlyA "a" "a" :=
  ⟨⟨by decide, by decide, by decide, by decide⟩,
    claim_C4 envAllOk stOnlyA "a" "a" 1 2
      (by decide) (by decide) (by decide) (by decide)⟩

/-- Claim C5 counterexample: with `save_contacts` failing, ADD_CONTACT
applies the in-memory mutation but sends nothing — no recoverable-error
report — and the handler terminates (`alive = false`), so the connection
does not remain usable, contradicting the claim. -/
theorem claim_C5_cex :
    handleReq envNoPersist 1 ⟨[("a", 1)], [("a", "OFFLINE")], [("a", [])]⟩ "a"
        (Req.ADD_CONTACT "b")
      = ⟨⟨[("a", 1)], [("a", "OFFLINE")], [("a", ["b"])]⟩, "a", [], false⟩ := by
  decide

/-- Claim C5 as amended: a contact-graph write failure during any of the
three mutating requests — ADD_CONTACT, REMOVE_CONTACT, or REGISTER — does
not roll back the in-memory mutation, but it is not reported to the caller
either: no record of any kind is sent, the exception ends the handler, the
rest of the input stream is ignored and the session closes through the
cleanup. -/
theorem claim_C5 (env : Env) (cid : Nat) (st : ServerState) (prev u c : String)
    (hu : u ≠ "") (hut : pyStrip u = u)
    (hct : pyStrip c = c) (hc0 : c ≠ "") (hcu : c ≠ u)
    (hp : env.persistOk = false) :
    persistFailSpec env cid st prev u c := by
  have h1 : handleReq env cid st u (Req.ADD_CONTACT c)
      = ⟨{ st with contacts :=
            dictSet st.contacts u (setAdd (dictGetD st.contacts u []) c) }, u,
          [], false⟩ := by
    simp [handleReq, hu, hct, hc0, hcu, hp]
  have h2 : handleReq env cid st u (Req.REMOVE_CONTACT c)
      = ⟨{ st with contacts :=
            dictSet st.contacts u (setDiscard (dictGetD st.contacts u []) c) }, u,
          [], false⟩ := by
    simp [handleReq, hu, hct, hp]
  have h3 : handleReq env cid st prev (Req.REGISTER u)
      = ⟨⟨dictSet st.clients u cid, dictSetdefault st.status u "OFFLINE",
          dictSetdefault st.contacts u []⟩, u, [], false⟩ := by
    simp [handleReq, hut, hu, hp]
  unfold persistFailSpec
  refine ⟨h1, ?_, h2, ?_, h3, ?_⟩
  · intro rest
    simp [runSession, h1, endSession]
  · intro rest
    simp [runSession, h2, endSession]
  · intro rest
    simp [runSession, h3, endSession]

/-- Claim C5 witness: the amended persistence-failure behaviour of all
three mutating requests at a concrete one-user state (the REGISTER issued
on a fresh, still-unregistered connection). -/
theorem claim_C5_witness :
    (("a" : String) ≠ "" ∧ pyStrip "a" = "a" ∧ pyStrip "b" = "b" ∧
      ("b" : String) ≠ "" ∧ ("b" : String) ≠ "a" ∧
      envNoPersist.persistOk = false) ∧
    persistFailSpec envNoPersist 1 stOnlyA "" "a" "b" :=
  ⟨⟨by decide, by decide, by decide, by decide, by decide, rfl⟩,
    claim_C5 envNoPersist 1 stOnlyA "" "a" "b"
      (by decide) (by decide) (by decide) (by decide) (by decide) rfl⟩

/-- Claim C6: for a registered owner `u` and a contact `c ≠ u` (both in
stripped form, as every registered identity is), ADD_CONTACT twice leaves
the state exactly as ADD_CONTACT once; ADD_CONTACT of `u` itself is
rejected as a validation error with no state change; REMOVE_CONTACT of a
contact absent from `u`'s set succeeds with a `CONTACTS` reply and changes
nothing at all. -/
theorem claim_C6 (env : Env) (cid : Nat) (st : ServerState) (u c : String)
    (hu : u ≠ "") (hut : pyStrip u = u) (hct : pyStrip c = c)
    (hc0 : c ≠ "") (hcu : c ≠ u) (hp : env.persistOk = true) :
    contactAlgebraSpec env cid st u c := by
  unfold contactAlgebraSpec
  refine ⟨?_, ?_, ?_⟩
  · rw [handleReq_ADD_CONTACT_eq hu hct hc0 hcu hp,
      handleReq_ADD_CONTACT_eq hu hct hc0 hcu hp]
    have hget : dictGet
        (dictSet st.contacts u (setAdd (dictGetD st.contacts u []) c)) u
        = some (setAdd (dictGetD st.contacts u []) c) :=
      dictGet_dictSet_self _ _ _
    simp only [dictGetD] at hget ⊢
    rw [hget]
    simp only [Option.getD_some, setAdd_idem]
    rw [dictSet_eq_of_get hget]
  · simp [handleReq, hu, hut]
  · intro l hl hcl
    have hD : dictGetD st.contacts u [] = l := by simp [dictGetD, hl]
    have hdisc : setDiscard l c = l := setDiscard_of_not_mem hcl
    have hset : dictSet st.contacts u l = st.contacts := dictSet_eq_of_get hl
    simp [handleReq, hu, hct, hp, hD, hdisc, hset]

/-- Claim C6 witness: the contact-list algebra at a concrete one-user
state (whose contact set does not contain `b`). -/
theorem claim_C6_witness :
    (("a" : String) ≠ "" ∧ pyStrip "a" = "a" ∧ pyStrip "b" = "b" ∧
      ("b" : String) ≠ "" ∧ ("b" : String) ≠ "a" ∧ envAllOk.persistOk = true) ∧
    contactAlgebraSpec envAllOk 1 stOnlyA "a" "b" :=
  ⟨⟨by decide, by decide, by decide, by decide, by decide, rfl⟩,
    claim_C6 envAllOk 1 stOnlyA "a" "b"
      (by decide) (by decide) (by decide) (by decide) (by decide) rfl⟩

/-- Claim C7 counterexample: the value `"online"` is not one of the two
well-known values, yet SET_STATUS accepts it — the handler uppercases
before validating — updating the presence map and replying `OK`, where the
claim requires a validation error and no state change. -/
theorem claim_C7_cex :
    (("online" : String) ≠ "ONLINE" ∧ ("online" : String) ≠ "OFFLINE") ∧
    handleReq envAllOk 1 stOnlyA "a" (Req.SET_STATUS "online")
      = ⟨⟨[("a", 1)], [("a", "ONLINE")], [("a", [])]⟩, "a",
          [Effect.reply (Msg.OK "SET_STATUS" "ONLINE")], true⟩ := by
  decide

/-- Claim C7 as amended: for a registered user, a SET_STATUS value is
accepted if and only if its UPPERCASED form is `ONLINE` or `OFFLINE`;
any other value draws the validation-error reply and leaves the entire
shared state unchanged with the connection still open. -/
theorem claim_C7 (env : Env) (cid : Nat) (st : ServerState) (u s : String)
    (hu : u ≠ "") :
    statusValidationSpec env cid st u s := by
  unfold statusValidationSpec
  constructor
  · intro hv
    simp [handleReq, hu, hv]
  · intro hv
    simp [handleReq, hu, hv]

/-- Claim C7 witness: the amended validation contract for the rejected
value `"busy"` at a concrete one-user state. -/
theorem claim_C7_witness :
    (("a" : String) ≠ "") ∧
    statusValidationSpec envAllOk 1 stOnlyA "a" "busy" :=
  ⟨by decide, claim_C7 envAllOk 1 stOnlyA "a" "busy" (by decide)⟩

/-- Claim C8: any transport failure — end of stream, an unreadable or
unparseable record, or expiry of the 120-unit idle window — ends the
session through cleanup: the trace contains no reply on the handler's
connection; when an identity was registered, its registry entry is gone,
its presence is forced OFFLINE, and the presence fan-out for that change
is the entire remaining output; when none was, nothing happens at all. -/
theorem claim_C8 (env : Env) (cid : Nat) (st : ServerState) (user : String)
    (ev : Event) (rest : List Event)
    (hfail : ev = Event.eof ∨ ev = Event.badRecord ∨ ev = Event.timeout)
    (hnd : nodupKeys st.clients) :
    closeSpec env cid st user ev rest := by
  have hrun : runSession env cid st user (ev :: rest) = endSession env st user := by
    rcases hfail with rfl | rfl | rfl <;> rfl
  unfold closeSpec
  refine ⟨hrun, ?_, ?_, ?_, rfl⟩
  · intro e he
    rw [hrun] at he
    by_cases hu : user = ""
    · simp [endSession, cleanup, hu] at he
    · simp only [endSession, cleanup, hu, if_neg] at he
      exact presenceBroadcast_no_reply e (by simpa using he)
  · intro hu
    rw [hrun]
    simp only [endSession, cleanup, hu, if_neg]
    exact ⟨dictGet_dictPop_self hnd, dictGet_dictSet_self _ _ _, by simp⟩
  · intro hu
    rw [hrun]
    simp [endSession, cleanup, hu]

/-- Claim C8 witness: idle-timeout closure of the session of registered
user `a`, after which `a` is deregistered and OFFLINE. -/
theorem claim_C8_witness :
    ((Event.timeout = Event.eof ∨ Event.timeout = Event.badRecord ∨
        Event.timeout = Event.timeout) ∧ nodupKeys stOnlyA.clients) ∧
    closeSpec envAllOk 1 stOnlyA "a" Event.timeout [Event.cmd (Req.SET_STATUS "ONLINE")] :=
  ⟨⟨Or.inr (Or.inr rfl), by decide⟩,
    claim_C8 envAllOk 1 stOnlyA "a" Event.timeout [Event.cmd (Req.SET_STATUS "ONLINE")]
      (Or.inr (Or.inr rfl)) (by decide)⟩

/-- Claim C9 counterexample: a queue holding one message whose body fails
to decode — `fetch_all` acknowledges it (tag 7 is removed at the broker)
although it is never part of any result: the fetch reports an `ERROR`. -/
theorem claim_C9_cex :
    fetch_all [⟨7, none⟩] FETCH_LIMIT = ⟨[], [7], true⟩ ∧
    handleFetch [⟨7, none⟩] "b" = (OfflineReply.ERROR "AMQP falhou", [7]) := by
  decide

/-- Claim C9 as amended: `fetch_all` acknowledges every message at the
moment it dequeues it (the ack sits in a `finally`), not after successful
return: a dequeued message whose body fails to decode is acknowledged —
removed at the broker — while the fetching client receives only an
`ERROR`; on a failure-free fetch the acknowledged tags are exactly the
tags of the dequeued prefix whose payloads make up the result. -/
theorem claim_C9 (q₁ q₂ : List RawMsg) (m : RawMsg) (u : String)
    (hq : ∀ x ∈ q₁, (x.payload).isSome = true) (hm : m.payload = none)
    (hlen : q₁.length < FETCH_LIMIT) :
    fetchAckSpec q₁ q₂ m u := by
  obtain ⟨hfail, hack⟩ := fetch_all_bad_prefix q₂ hq hm hlen
  unfold fetchAckSpec
  refine ⟨hack, ?_, ?_, ?_⟩
  · simp [handleFetch, hfail]
  · simp [handleFetch, hfail]
  · intro q k h
    exact fetch_all_clean q k h

/-- Claim C9 witness: a queue with one good message followed by one
undecodable message and one more behind it. -/
theorem claim_C9_witness :
    ((∀ x ∈ [RawMsg.mk 1 (some "x")], (x.payload).isSome = true) ∧
      (RawMsg.mk 2 none).payload = none ∧
      [RawMsg.mk 1 (some "x")].length < FETCH_LIMIT) ∧
    fetchAckSpec [RawMsg.mk 1 (some "x")] [RawMsg.mk 3 (some "y")]
      (RawMsg.mk 2 none) "bob" :=
  ⟨⟨by decide, rfl, by decide⟩,
    claim_C9 [RawMsg.mk 1 (some "x")] [RawMsg.mk 3 (some "y")]
      (RawMsg.mk 2 none) "bob" (by decide) rfl (by decide)⟩

/-- Claim C10: the `finally` cleanup of a handler whose last registered
identity is `u` pops `u`'s registry entry, forces `u`'s presence to
OFFLINE and triggers the fan-out, even when — as hypothesised here — the
registry currently maps `u` to some (possibly newer) connection `cid2`:
`cleanup` acts by identity alone, so closing a superseded connection
deregisters the identity's currently active connection. -/
theorem claim_C10 (env : Env) (st : ServerState) (u : String) (cid2 : Nat)
    (hu : u ≠ "") (hnd : nodupKeys st.clients)
    (_hre : dictGet st.clients u = some cid2) :
    cleanupUncondSpec env st u := by
  unfold cleanupUncondSpec
  simp only [cleanup, hu, if_neg]
  exact ⟨rfl, dictGet_dictPop_self hnd, dictGet_dictSet_self _ _ _, rfl⟩

/-- Claim C10 witness: `a` is currently registered on the newer connection
2; the cleanup of the old handler still removes the entry and forces `a`
OFFLINE. -/
theorem claim_C10_witness :
    (("a" : String) ≠ "" ∧
      nodupKeys (ServerState.mk [("a", 2)] [("a", "ONLINE")] []).clients ∧
      dictGet (ServerState.mk [("a", 2)] [("a", "ONLINE")] []).clients "a" = some 2) ∧
    cleanupUncondSpec envAllOk (ServerState.mk [("a", 2)] [("a", "ONLINE")] []) "a" :=
  ⟨⟨by decide, by decide, by decide⟩,
    claim_C10 envAllOk (ServerState.mk [("a", 2)] [("a", "ONLINE")] []) "a" 2
      (by decide) (by decide) (by decide)⟩

end ChatMom
